import Mathlib

/-!
# Verification of the Luco-Mintos billing / dispatch / reconciliation core

Shallow embedding of the billing-gated SMS dispatch subsystem of the
repository (files `app/api/routes/smssend.py`, `app/api/routes/adminpre.py`,
`app/models.py`) together with proofs and refutations of the specified
properties.

Monetary values are modelled as exact rationals (`ℚ`).  The source mixes two
numeric representations of the wallet balance:

* the SMS debit path (`deduct_and_log_wallet`) parses the wallet string with
  Python `Decimal`, subtracts, and stores the result quantized to two decimal
  places with the default `ROUND_HALF_EVEN` rounding — modelled by `quantize2`;
* the admin credit path (`add_balance_to_user`) parses the wallet string with
  Python `float` (IEEE-754 binary64), adds, and stores `str(new_balance)` —
  float conversion and float addition are modelled by `fl53`, correctly-rounded
  (round-to-nearest, ties-to-even) conversion to a 53-significant-bit dyadic
  rational.  Overflow and subnormals are unreachable at wallet magnitudes and
  are not modelled.  The stored string `str(new_balance)` denotes the shortest
  decimal that reparses to the same float; we keep the float's exact value,
  which every subsequent float read recovers exactly.
-/

/-- Round a rational to the nearest integer, ties to the even integer —
Python `Decimal`'s default `ROUND_HALF_EVEN` and the tie rule of IEEE-754
round-to-nearest. -/
def roundHalfEvenZ (q : ℚ) : ℤ :=
  if q - ⌊q⌋ < 1/2 then ⌊q⌋
  else if 1/2 < q - ⌊q⌋ then ⌊q⌋ + 1
  else if ⌊q⌋ % 2 = 0 then ⌊q⌋ else ⌊q⌋ + 1

/-- `Decimal.quantize(Decimal("0.01"))` with the default `ROUND_HALF_EVEN`
context rounding: round to exactly two decimal places. -/
def quantize2 (q : ℚ) : ℚ :=
  (roundHalfEvenZ (q * 100) : ℚ) / 100

/-- Python `float` of an exact rational: round to the nearest dyadic rational
with a 53-bit significand, ties to even (IEEE-754 binary64; overflow and
subnormals are unreachable at the magnitudes handled by the wallet code and
are not modelled).  Both `float(decimal_string)` and the exact result of a
float arithmetic operation are this correctly-rounded value. -/
def fl53 (q : ℚ) : ℚ :=
  if q = 0 then 0
  else (if q < 0 then (-1 : ℚ) else 1) *
    (roundHalfEvenZ (|q| * 2 ^ ((52 : ℤ) - Int.log 2 |q|)) : ℚ) * 2 ^ (Int.log 2 |q| - 52)

/-!
## Data model

Ledger entries (`Transaction` in `app/models.py`), dispatch records
(`SmsHistory`), and the per-user database state visible to the billing core.
Fields that bear on no claim (ids, currency, payment method, reference
numbers, created/updated timestamps) are omitted; timestamps that the claims
do mention are modelled as natural numbers.
-/

/-- One ledger entry — the claim-relevant fields of `Transaction`
(`app/models.py`).  `amount` is a Python float in the source
(`amount: float`), so both writers store an `fl53` value in it. -/
structure Transaction where
  transaction_type : String
  amount : ℚ
  description : Option String
  status : String
  balance_before : ℚ
  balance_after : ℚ
deriving DecidableEq

/-- One dispatch record — the claim-relevant fields of `SmsHistory`
(`app/models.py`). -/
structure SmsHistory where
  recipient : String
  message : String
  status : String
  sms_count : ℕ
  cost : ℚ
  external_id : Option String
  error_message : Option String
  sent_at : Option ℕ
  delivered_at : Option ℕ
deriving DecidableEq

/-- Events handed to `manager.broadcast` (the two call sites in
`smssend.py`); the payload dictionaries are modelled by their fields. -/
inductive Event where
  | sms_batch_sent (summary : String) (total_sent : ℕ) (total_cost : ℚ)
      (timestamp : ℕ)
  | delivery_update (phoneNumber : Option String) (status : String)
      (messageId : Option String) (failureReason : Option String)
deriving DecidableEq

/-- `fastapi.HTTPException(status_code=..., detail=...)`.  The interpolated
amounts in the source's detail strings are elided; the status code and the
error class are what the claims speak about. -/
structure HTTPException where
  status_code : ℕ
  detail : String
deriving DecidableEq

/-- The database state of one account: its stored wallet value
(the rational denoted by the `user.wallet` string), its `sms_cost` unit
price, and the tables the billing core writes.  `broadcasts` records the
events handed to `manager.broadcast`, in order. -/
structure DbState where
  wallet : ℚ
  sms_cost : ℚ
  transactions : List Transaction
  sms_history : List SmsHistory
  broadcasts : List Event
deriving DecidableEq

/-- A freshly registered account: the `UserBase` defaults in
`app/models.py` are `wallet = "10.0"` and `sms_cost = "32"`, with no
transactions and no history. -/
def initState : DbState :=
  { wallet := 10, sms_cost := 32, transactions := [], sms_history := [],
    broadcasts := [] }

/-- Python `str.lower` (the status strings are ASCII). -/
def pyLower (s : String) : String :=
  String.mk (s.data.map Char.toLower)

/-- `charsStartWith n h`: the char list `n` is an initial segment of `h`. -/
def charsStartWith : List Char → List Char → Bool
  | [], _ => true
  | _ :: _, [] => false
  | a :: as, b :: bs => a == b && charsStartWith as bs

/-- `charsContain n h`: the char list `n` occurs contiguously in `h`. -/
def charsContain (needle : List Char) : List Char → Bool
  | [] => charsStartWith needle []
  | c :: rest => charsStartWith needle (c :: rest) || charsContain needle rest

/-- Python's case-sensitive substring test `needle in hay`. -/
def pyContains (needle hay : String) : Bool :=
  charsContain needle.data hay.data

/-!
## Operations (translated from `app/api/routes/smssend.py` and
`app/api/routes/adminpre.py`)
-/

/-- `deduct_and_log_wallet(session, user, total_cost, description)`
(`smssend.py` lines 86–115): parse the wallet with `Decimal`, reject with
HTTP 400 when `current_balance < total_cost`, otherwise store the quantized
new balance and append one completed debit `Transaction`, committed
atomically.  The transaction's float fields go through `fl53`
(`float(total_cost)`, `float(current_balance)`, `float(new_balance)`). -/
def deduct_and_log_wallet (s : DbState) (total_cost : ℚ) (description : String) :
    Except HTTPException DbState :=
  if s.wallet < total_cost then
    .error { status_code := 400, detail := "Insufficient funds" }
  else
    .ok { s with
      wallet := quantize2 (s.wallet - total_cost),
      transactions := s.transactions ++ [{
        transaction_type := "debit",
        amount := fl53 total_cost,
        description := some description,
        status := "completed",
        balance_before := fl53 s.wallet,
        balance_after := fl53 (s.wallet - total_cost) }] }

/-- The SMS unit count computed inline in `send_sms` (`smssend.py` line 145):
`(msg_len // 153) + (1 if msg_len % 153 else 0) if msg_len > 160 else 1`. -/
def sms_units (msg_len : ℕ) : ℕ :=
  if msg_len > 160 then msg_len / 153 + (if msg_len % 153 ≠ 0 then 1 else 0)
  else 1

/-- One per-recipient entry of the gateway response
(`response["SMSMessageData"]["Recipients"]`).  `cost` is the numeric value
parsed from the `"UGX <x>"` string. -/
structure RecipientResult where
  number : String
  status : String
  statusCode : ℕ
  cost : ℚ
  messageId : Option String
deriving DecidableEq

/-- Outcome of the `sms.send(...)` call: either any exception (total
gateway failure — network error, provider outage, malformed response), or
the parsed response data (`Message` summary plus per-recipient results,
possibly with individually rejected recipients). -/
inductive GatewayOutcome where
  | failure (message : String)
  | success (summary : String) (recipients : List RecipientResult)
deriving DecidableEq

/-- The endpoint's success payload (`SendSMSResponse`); the per-recipient
echo keeps the gateway fields. -/
structure SendSMSResponse where
  batch_id : Option String
  summary : String
  total_sent : ℕ
  total_cost_ugx : ℚ
  recipients : List RecipientResult
deriving DecidableEq

/-- `send_sms` (`smssend.py` lines 118–221) for an already resolved message
body (template lookup is elided — no claim concerns `TemplateNotFound`;
`sender`/`enqueue` do not touch the modelled state).  The gateway outcome is
a parameter: the function is only applied to it after the debit committed,
mirroring the source's ordering.  On gateway failure the source runs
`session.rollback()` — at that point nothing is uncommitted (the debit was
committed inside `deduct_and_log_wallet`, and no history row has been
added yet), so the state after the 502 error is the post-debit state. -/
def send_sms (s : DbState) (final_message : String) (to_list : List String)
    (gw : GatewayOutcome) (now : ℕ) :
    DbState × Except HTTPException SendSMSResponse :=
  let msg_len := final_message.length
  let units := sms_units msg_len
  let recipients_count := to_list.length
  let cost_per_sms := s.sms_cost
  let total_cost := cost_per_sms * units * recipients_count
  match deduct_and_log_wallet s total_cost
      ("SMS to " ++ toString recipients_count ++ " recipients") with
  | .error e => (s, .error e)
  | .ok s1 =>
    match gw with
    | .failure msg =>
      (s1, .error { status_code := 502, detail := "SMS gateway failed: " ++ msg })
    | .success summary results =>
      let rows := results.map (fun r =>
        { recipient := r.number
          message := final_message
          status := pyLower r.status
          sms_count := units
          cost := fl53 r.cost
          external_id := r.messageId
          error_message := none
          sent_at := some now
          delivered_at := none : SmsHistory })
      let s2 := { s1 with
        sms_history := s1.sms_history ++ rows,
        broadcasts := s1.broadcasts ++
          [.sms_batch_sent summary results.length total_cost now] }
      (s2, .ok { batch_id := none, summary := summary,
                 total_sent := results.length, total_cost_ugx := total_cost,
                 recipients := results })

/-- `add_balance_to_user` (`adminpre.py` lines 316–373): parse the wallet
with `float`, add the request amount (a float — pydantic coerces the JSON
number), store `str(new_balance)` un-quantized, and append one completed
credit `Transaction`. -/
def add_balance_to_user (s : DbState) (amount : ℚ) (description : Option String) :
    DbState :=
  let req_amount := fl53 amount
  let current_balance := fl53 s.wallet
  let new_balance := fl53 (current_balance + req_amount)
  { s with
    wallet := new_balance,
    transactions := s.transactions ++ [{
      transaction_type := "credit",
      amount := req_amount,
      description := description,
      status := "completed",
      balance_before := current_balance,
      balance_after := new_balance }] }

/-- The delivery-report payload (`report.get(...)` fields).  `status` is
required: the source calls `status.lower()` unconditionally, so a callback
without a status crashes before any state change — no claim concerns it. -/
structure DeliveryReport where
  phoneNumber : Option String
  status : String
  id : Option String
  failureReason : Option String
deriving DecidableEq

/-- The webhook's history update: the first row whose `external_id` equals
the report's correlation id (SQLAlchemy's `==` on a `None` id selects rows
whose stored id is NULL, matching `Option.beq`) gets status lowered,
`error_message := failureReason`, and `delivered_at` overwritten —
`datetime.utcnow() if "Delivered" in status else None`
(`smssend.py` lines 250–254). -/
def updateFirstReport (report : DeliveryReport) (now : ℕ) :
    List SmsHistory → List SmsHistory
  | [] => []
  | h :: t =>
    if h.external_id == report.id then
      { h with
        status := pyLower report.status,
        error_message := report.failureReason,
        delivered_at :=
          if pyContains "Delivered" report.status then some now else none } :: t
    else h :: updateFirstReport report now t

/-- `delivery_report_webhook` (`smssend.py` lines 234–266): update the
matching history row if any, then broadcast a `delivery_update` event, and
always acknowledge with `{"status": "received"}`. -/
def delivery_report_webhook (s : DbState) (report : DeliveryReport) (now : ℕ) :
    DbState × String :=
  ({ s with
     sms_history := updateFirstReport report now s.sms_history,
     broadcasts := s.broadcasts ++
       [.delivery_update report.phoneNumber report.status report.id
         report.failureReason] },
   "received")

/-- The observer registry (`ConnectionManager`); websocket connections are
identified by numbers, and Python's set iteration order is the list order. -/
structure ConnectionManager where
  active_connections : List ℕ
deriving DecidableEq

/-- `conn.send_text(...)`: delivery to a connection either succeeds or
raises; which one is governed by the environment `sendOk`. -/
def send_text (sendOk : ℕ → Bool) (conn : ℕ) : Except String Unit :=
  if sendOk conn then .ok () else .error "connection closed"

/-- `ConnectionManager.broadcast` (`smssend.py` lines 52–59): try to send to
every active connection, collect the ones whose send raised into
`disconnected`, remove those afterwards, and swallow every send error (the
bare `except`).  Returns the updated manager and the list of connections
that received the message; the `Except` result type records whether any
exception escapes to the caller. -/
def broadcast_step (sendOk : ℕ → Bool) (acc : List ℕ × List ℕ) (conn : ℕ) :
    List ℕ × List ℕ :=
  match send_text sendOk conn with
  | .ok _ => (acc.1 ++ [conn], acc.2)
  | .error _ => (acc.1, acc.2 ++ [conn])

def ConnectionManager.broadcast (self : ConnectionManager) (sendOk : ℕ → Bool) :
    Except String (ConnectionManager × List ℕ) :=
  let result := self.active_connections.foldl (broadcast_step sendOk) ([], [])
  .ok ({ active_connections :=
          self.active_connections.filter (fun c => ! result.2.contains c) },
       result.1)

/-!
## Operation sequences over the ledger

The two cited ledger writers, applied in sequence from a fresh account —
the setting of the balance invariant (§3 of the spec).
-/

/-- One balance mutation: an SMS debit (`deduct_and_log_wallet`; an
insufficient-funds rejection aborts the request, leaving the state unchanged
and writing no entry) or an admin credit (`add_balance_to_user`). -/
inductive WalletOp where
  | debit (cost : ℕ) (description : String)
  | credit (amount : ℕ)
deriving DecidableEq

/-- Apply one `WalletOp` to the account state. -/
def applyWalletOp (s : DbState) : WalletOp → DbState
  | .debit c d =>
    match deduct_and_log_wallet s (c : ℚ) d with
    | .ok s1 => s1
    | .error _ => s
  | .credit a => add_balance_to_user s (a : ℚ) none

/-- Apply a sequence of balance mutations, oldest first. -/
def applyWalletOps (s : DbState) (ops : List WalletOp) : DbState :=
  ops.foldl applyWalletOp s

/-- Total amount credited by a sequence of operations. -/
def creditTotal : List WalletOp → ℕ
  | [] => 0
  | .credit a :: rest => a + creditTotal rest
  | .debit _ _ :: rest => creditTotal rest

/-- The signed amount of a ledger entry: credits positive, debits negative. -/
def signedAmount (t : Transaction) : ℚ :=
  if t.transaction_type = "credit" then t.amount else -t.amount

/-- Sum of the signed amounts of the completed ledger entries. -/
def completedSignedSum (ts : List Transaction) : ℚ :=
  ((ts.filter (fun t => t.status == "completed")).map signedAmount).sum
theorem roundHalfEvenZ_intCast (m : ℤ) : roundHalfEvenZ (m : ℚ) = m := by
  unfold roundHalfEvenZ
  norm_num

theorem roundHalfEvenZ_nonneg {q : ℚ} (hq : 0 ≤ q) : 0 ≤ roundHalfEvenZ q := by
  have hf : (0 : ℤ) ≤ ⌊q⌋ := Int.floor_nonneg.mpr hq
  unfold roundHalfEvenZ
  split
  · exact hf
  · split
    · omega
    · split
      · exact hf
      · omega

theorem quantize2_intCast (m : ℤ) : quantize2 (m : ℚ) = m := by
  unfold quantize2
  have h : ((m : ℚ) * 100) = ((m * 100 : ℤ) : ℚ) := by push_cast; ring
  rw [h, roundHalfEvenZ_intCast]
  push_cast
  ring

theorem quantize2_natCast (n : ℕ) : quantize2 (n : ℚ) = n := by
  simpa using quantize2_intCast (n : ℤ)

theorem quantize2_nonneg {q : ℚ} (hq : 0 ≤ q) : 0 ≤ quantize2 q := by
  unfold quantize2
  have h1 : (0 : ℤ) ≤ roundHalfEvenZ (q * 100) :=
    roundHalfEvenZ_nonneg (by positivity)
  positivity

theorem quantize2_idem (q : ℚ) : quantize2 (quantize2 q) = quantize2 q := by
  unfold quantize2
  have h : ((roundHalfEvenZ (q * 100) : ℚ) / 100 * 100)
      = ((roundHalfEvenZ (q * 100) : ℤ) : ℚ) := by
    field_simp
  rw [h, roundHalfEvenZ_intCast]

/-- Uniqueness of the binary exponent: `Int.log 2 q` is the only `e` with
`2 ^ e ≤ q < 2 ^ (e + 1)`.  Used to evaluate `fl53` at concrete inputs. -/
theorem int_log2_eq {q : ℚ} {e : ℤ} (hq : 0 < q) (h1 : (2:ℚ) ^ e ≤ q)
    (h2 : q < 2 ^ (e + 1)) : Int.log 2 q = e := by
  have hL1 : (2:ℚ) ^ (Int.log 2 q) ≤ q := Int.zpow_log_le_self (by norm_num) hq
  have hL2 : q < (2:ℚ) ^ (Int.log 2 q + 1) := Int.lt_zpow_succ_log_self (by norm_num) q
  by_contra hne
  rcases lt_or_gt_of_ne hne with h | h
  · have : (2:ℚ) ^ (Int.log 2 q + 1) ≤ 2 ^ e :=
      zpow_le_zpow_right₀ (by norm_num) (by omega)
    linarith
  · have : (2:ℚ) ^ (e + 1) ≤ 2 ^ (Int.log 2 q) :=
      zpow_le_zpow_right₀ (by norm_num) (by omega)
    linarith

theorem fl53_zero : fl53 0 = 0 := by
  unfold fl53; simp

/-- Conversion to binary64 is exact on natural numbers below `2 ^ 53`
(they fit in the 53-bit significand). -/
theorem fl53_natCast {n : ℕ} (hb : n < 2 ^ 53) : fl53 (n : ℚ) = n := by
  rcases Nat.eq_zero_or_pos n with h0 | hn
  · subst h0
    simpa using fl53_zero
  unfold fl53
  have hnonneg : (0 : ℚ) ≤ n := by positivity
  rw [if_neg (Nat.cast_ne_zero.mpr hn.ne'), if_neg (not_lt.mpr hnonneg),
    abs_of_nonneg hnonneg, one_mul, Int.log_natCast]
  have hk : Nat.log 2 n ≤ 52 := by
    have := Nat.log_lt_of_lt_pow hn.ne' hb
    omega
  have hexp : (52 : ℤ) - (Nat.log 2 n : ℤ) = ((52 - Nat.log 2 n : ℕ) : ℤ) := by
    omega
  rw [hexp]
  have hint : (n : ℚ) * 2 ^ (((52 - Nat.log 2 n : ℕ)) : ℤ)
      = (((n * 2 ^ (52 - Nat.log 2 n) : ℕ) : ℤ) : ℚ) := by
    rw [zpow_natCast]
    push_cast
    ring
  rw [hint, roundHalfEvenZ_intCast]
  push_cast
  rw [mul_assoc, ← zpow_natCast (2 : ℚ) (52 - Nat.log 2 n), ← zpow_add₀ (two_ne_zero)]
  have hzero : (((52 - Nat.log 2 n : ℕ)) : ℤ) + ((Nat.log 2 n : ℤ) - 52) = 0 := by
    omega
  rw [hzero, zpow_zero, mul_one]


theorem completedSignedSum_append {t : Transaction} (ts : List Transaction)
    (ht : t.status = "completed") :
    completedSignedSum (ts ++ [t]) = completedSignedSum ts + signedAmount t := by
  simp [completedSignedSum, List.filter_append, ht]

/-- For lengths above 160 the inline unit formula
`len // 153 + (1 if len % 153 else 0)` is exactly `ceil(len / 153)`. -/
theorem sms_units_eq_ceil {len : ℕ} (h : 160 < len) :
    (sms_units len : ℤ) = ⌈(len : ℚ) / 153⌉ := by
  have hdm := Nat.div_add_mod len 153
  unfold sms_units
  rw [if_pos h]
  by_cases hr : len % 153 = 0
  · rw [if_neg (by simp [hr]), Nat.add_zero]
    have hlen : (len : ℚ) = 153 * ((len / 153 : ℕ) : ℚ) := by
      exact_mod_cast congrArg (fun k : ℕ => (k : ℚ)) (by omega : len = 153 * (len / 153))
    rw [hlen, mul_div_cancel_left₀ _ (by norm_num : (153:ℚ) ≠ 0), Int.ceil_natCast]
  · rw [if_pos hr]
    symm
    rw [Int.ceil_eq_iff]
    have h1 : 153 * (len / 153) < len := by omega
    have h2 : len ≤ 153 * (len / 153) + 153 := by omega
    have h1q : (153 : ℚ) * ((len / 153 : ℕ) : ℚ) < (len : ℚ) := by
      exact_mod_cast h1
    have h2q : (len : ℚ) ≤ 153 * ((len / 153 : ℕ) : ℚ) + 153 := by
      exact_mod_cast h2
    constructor
    · rw [lt_div_iff₀ (by norm_num : (0:ℚ) < 153), Int.cast_natCast,
        Nat.cast_add, Nat.cast_one]
      linarith
    · rw [div_le_iff₀ (by norm_num : (0:ℚ) < 153), Int.cast_natCast,
        Nat.cast_add, Nat.cast_one]
      linarith

/-- C4: the cost computation is a pure deterministic function of message
length, recipient count and unit price — one unit for every message of
length ≤ 160, `ceil(length / 153)` units for longer ones (boundaries:
160 → 1, 161 → 2, 306 → 2, 307 → 3) — and `send_sms` charges exactly
`unit_count × unit_price × recipient_count` against the wallet. -/
theorem C4_cost_function :
    (∀ len : ℕ, len ≤ 160 → sms_units len = 1) ∧
    (∀ len : ℕ, 160 < len → (sms_units len : ℤ) = ⌈(len : ℚ) / 153⌉) ∧
    sms_units 160 = 1 ∧ sms_units 161 = 2 ∧ sms_units 306 = 2 ∧
    sms_units 307 = 3 ∧
    (∀ (s : DbState) (final_message : String) (to_list : List String)
        (gw : GatewayOutcome) (now : ℕ),
      ¬ s.wallet < s.sms_cost * sms_units final_message.length * to_list.length →
      (send_sms s final_message to_list gw now).1.wallet
        = quantize2 (s.wallet
            - s.sms_cost * sms_units final_message.length * to_list.length)) := by
  refine ⟨?_, fun len h => sms_units_eq_ceil h, by decide, by decide, by decide,
    by decide, ?_⟩
  · intro len hlen
    rw [sms_units, if_neg (by omega)]
  · intro s final_message to_list gw now h
    unfold send_sms
    simp only [deduct_and_log_wallet, if_neg h]
    cases gw <;> simp

/-- Witness for C4 at concrete inputs: length 100 gives one unit, length 307
gives the ceiling value, and a concrete affordable request is charged
`unit_count × unit_price × recipient_count`. -/
theorem C4_cost_function_witness :
    sms_units 100 = 1 ∧ (sms_units 307 : ℤ) = ⌈(307 : ℚ) / 153⌉ ∧
    (send_sms { wallet := 100, sms_cost := 32, transactions := [],
                sms_history := [], broadcasts := [] } "hello" ["+256700000001"]
        (.failure "down") 0).1.wallet
      = quantize2 (100 - 32 * sms_units (String.length "hello") * 1) := by
  have h5 : (String.length "hello") = 5 := rfl
  have hyp : ¬ ((100 : ℚ) < (32 : ℚ) * sms_units (String.length "hello")
      * (["+256700000001"].length : ℕ)) := by
    rw [h5]
    norm_num [sms_units]
  have := C4_cost_function.2.2.2.2.2.2
    { wallet := 100, sms_cost := 32, transactions := [], sms_history := [],
          broadcasts := [] } "hello" ["+256700000001"] (.failure "down") 0
    (by simpa using hyp)
  refine ⟨C4_cost_function.1 100 (by norm_num),
    C4_cost_function.2.1 307 (by norm_num), ?_⟩
  simpa using this

/-- C3: when the balance is strictly below the computed total cost the
request fails with the 400-class insufficient-funds error and nothing
changes — no ledger entry, no dispatch record, no broadcast, unchanged
balance — and the result does not depend on the gateway (it is never
called); conversely, when the balance covers the cost the debit succeeds
and appends exactly one ledger entry. -/
theorem C3_insufficient_funds_aborts :
    ∀ (s : DbState) (final_message : String) (to_list : List String)
      (gw gw2 : GatewayOutcome) (now : ℕ),
      (s.wallet < s.sms_cost * sms_units final_message.length * to_list.length →
        send_sms s final_message to_list gw now
          = (s, .error { status_code := 400, detail := "Insufficient funds" }) ∧
        send_sms s final_message to_list gw now
          = send_sms s final_message to_list gw2 now) ∧
      (¬ s.wallet < s.sms_cost * sms_units final_message.length * to_list.length →
        (send_sms s final_message to_list gw now).1.transactions
          = s.transactions ++
            [{ transaction_type := "debit",
               amount := fl53 (s.sms_cost * sms_units final_message.length
                 * to_list.length),
               description := some ("SMS to " ++ toString to_list.length
                 ++ " recipients"),
               status := "completed",
               balance_before := fl53 s.wallet,
               balance_after := fl53 (s.wallet
                 - s.sms_cost * sms_units final_message.length
                   * to_list.length) }]) := by
  intro s final_message to_list gw gw2 now
  constructor
  · intro h
    unfold send_sms
    simp only [deduct_and_log_wallet, if_pos h]
    cases gw <;> cases gw2 <;> simp
  · intro h
    unfold send_sms
    simp only [deduct_and_log_wallet, if_neg h]
    cases gw <;> simp

/-- Witness for C3: a fresh account (wallet 10.0) cannot afford a 32-unit
message, and the whole request is rejected unchanged with the 400 error;
with wallet 100 the same request succeeds and appends exactly one ledger
entry. -/
theorem C3_insufficient_funds_aborts_witness :
    send_sms initState "hi" ["+256700000001"] (.failure "down") 3
      = (initState, .error { status_code := 400, detail := "Insufficient funds" }) ∧
    (send_sms { initState with wallet := 100 } "hi" ["+256700000001"]
        (.success "Sent" []) 3).1.transactions.length = 1 := by
  have hlt : initState.wallet
      < initState.sms_cost * sms_units (String.length "hi")
        * (["+256700000001"].length : ℕ) := by
    have : (String.length "hi") = 2 := rfl
    rw [this]
    norm_num [initState, sms_units]
  have hge : ¬ ({ initState with wallet := 100 } : DbState).wallet
      < ({ initState with wallet := 100 } : DbState).sms_cost
        * sms_units (String.length "hi") * (["+256700000001"].length : ℕ) := by
    have : (String.length "hi") = 2 := rfl
    rw [this]
    norm_num [initState, sms_units]
  refine ⟨((C3_insufficient_funds_aborts initState "hi" ["+256700000001"]
      (.failure "down") (.failure "down") 3).1 hlt).1, ?_⟩
  have h2 := (C3_insufficient_funds_aborts { initState with wallet := 100 }
      "hi" ["+256700000001"] (.success "Sent" []) (.success "Sent" []) 3).2 hge
  simpa [initState] using congrArg List.length h2

/-- C7: when the gateway returns per-recipient results — accepted and
rejected mixed — exactly one dispatch record is created per recipient
result, carrying the provider's (lowercased) per-recipient status; the
debited amount is the full computed cost, unchanged by the rejections; and
no compensating credit entry is issued. -/
theorem C7_partial_results_billed (s : DbState) (final_message : String)
    (to_list : List String) (summary : String) (results : List RecipientResult)
    (now : ℕ)
    (h : ¬ s.wallet < s.sms_cost * sms_units final_message.length
      * to_list.length) :
    (send_sms s final_message to_list (.success summary results) now).1.sms_history
      = s.sms_history ++ results.map (fun r =>
          { recipient := r.number
            message := final_message
            status := pyLower r.status
            sms_count := sms_units final_message.length
            cost := fl53 r.cost
            external_id := r.messageId
            error_message := none
            sent_at := some now
            delivered_at := none }) ∧
    (send_sms s final_message to_list (.success summary results) now).1.wallet
      = quantize2 (s.wallet - s.sms_cost * sms_units final_message.length
          * to_list.length) ∧
    (send_sms s final_message to_list (.success summary results) now
        ).1.transactions.filter (fun t => t.transaction_type == "credit")
      = s.transactions.filter (fun t => t.transaction_type == "credit") := by
  unfold send_sms
  simp only [deduct_and_log_wallet, if_neg h]
  refine ⟨by simp, by simp, ?_⟩
  simp [List.filter_append]

/-- Witness for C7: the spec's scenario — 5 recipients at unit price 10,
3 accepted and 2 rejected — yields exactly 5 dispatch records with the
provider statuses, a total charge of 50 against a wallet of 100, and no
credit entry. -/
theorem C7_partial_results_billed_witness :
    ((send_sms { wallet := 100, sms_cost := 10, transactions := [],
                 sms_history := [], broadcasts := [] } "hello"
        ["+1", "+2", "+3", "+4", "+5"]
        (.success "Sent"
          [{ number := "+1", status := "Success", statusCode := 101,
             cost := 10, messageId := some "m1" },
           { number := "+2", status := "Success", statusCode := 101,
             cost := 10, messageId := some "m2" },
           { number := "+3", status := "Success", statusCode := 101,
             cost := 10, messageId := some "m3" },
           { number := "+4", status := "InvalidPhoneNumber", statusCode := 403,
             cost := 0, messageId := none },
           { number := "+5", status := "UserInBlacklist", statusCode := 406,
             cost := 0, messageId := none }]) 0).1.sms_history.map
      SmsHistory.status)
      = ["success", "success", "success", "invalidphonenumber",
         "userinblacklist"] ∧
    (send_sms { wallet := 100, sms_cost := 10, transactions := [],
                sms_history := [], broadcasts := [] } "hello"
        ["+1", "+2", "+3", "+4", "+5"]
        (.success "Sent"
          [{ number := "+1", status := "Success", statusCode := 101,
             cost := 10, messageId := some "m1" },
           { number := "+2", status := "Success", statusCode := 101,
             cost := 10, messageId := some "m2" },
           { number := "+3", status := "Success", statusCode := 101,
             cost := 10, messageId := some "m3" },
           { number := "+4", status := "InvalidPhoneNumber", statusCode := 403,
             cost := 0, messageId := none },
           { number := "+5", status := "UserInBlacklist", statusCode := 406,
             cost := 0, messageId := none }]) 0).1.wallet
      = quantize2 (100 - 10 * sms_units (String.length "hello") * 5) := by
  have h5 : (String.length "hello") = 5 := rfl
  have hge : ¬ (({ wallet := 100, sms_cost := 10, transactions := [],
                   sms_history := [], broadcasts := [] } : DbState).wallet
      < ({ wallet := 100, sms_cost := 10, transactions := [], sms_history := [],
           broadcasts := [] } : DbState).sms_cost
        * sms_units (String.length "hello")
        * ((["+1", "+2", "+3", "+4", "+5"] : List String).length : ℕ)) := by
    rw [h5]
    norm_num [sms_units]
  have hmain := C7_partial_results_billed
    { wallet := 100, sms_cost := 10, transactions := [], sms_history := [],
      broadcasts := [] } "hello" ["+1", "+2", "+3", "+4", "+5"] "Sent"
    [{ number := "+1", status := "Success", statusCode := 101,
       cost := 10, messageId := some "m1" },
     { number := "+2", status := "Success", statusCode := 101,
       cost := 10, messageId := some "m2" },
     { number := "+3", status := "Success", statusCode := 101,
       cost := 10, messageId := some "m3" },
     { number := "+4", status := "InvalidPhoneNumber", statusCode := 403,
       cost := 0, messageId := none },
     { number := "+5", status := "UserInBlacklist", statusCode := 406,
       cost := 0, messageId := none }] 0 hge
  refine ⟨?_, by simpa using hmain.2.1⟩
  have hmap := congrArg (fun l => l.map SmsHistory.status) hmain.1
  simp only at hmap
  rw [hmap]
  have hl : pyLower "Success" = "success" := by decide
  have hl2 : pyLower "InvalidPhoneNumber" = "invalidphonenumber" := by decide
  have hl3 : pyLower "UserInBlacklist" = "userinblacklist" := by decide
  simp [hl, hl2, hl3]

/-- On total gateway failure after a successful debit, `send_sms` returns the
502 error with the post-debit state unchanged: the committed debit stays (the
`session.rollback()` in the handler runs after `deduct_and_log_wallet`
already committed, so it undoes nothing), no history row is written, no
credit entry is added, and no event is broadcast. -/
theorem send_sms_gateway_failure (s : DbState) (final_message : String)
    (to_list : List String) (msg : String) (now : ℕ)
    (h : ¬ s.wallet < s.sms_cost * sms_units final_message.length
      * to_list.length) :
    send_sms s final_message to_list (.failure msg) now
      = ({ s with
           wallet := quantize2 (s.wallet
             - s.sms_cost * sms_units final_message.length * to_list.length),
           transactions := s.transactions ++
             [{ transaction_type := "debit",
                amount := fl53 (s.sms_cost * sms_units final_message.length
                  * to_list.length),
                description := some ("SMS to " ++ toString to_list.length
                  ++ " recipients"),
                status := "completed",
                balance_before := fl53 s.wallet,
                balance_after := fl53 (s.wallet
                  - s.sms_cost * sms_units final_message.length
                    * to_list.length) }] },
         .error { status_code := 502, detail := "SMS gateway failed: " ++ msg }) := by
  unfold send_sms
  simp only [deduct_and_log_wallet, if_neg h]

/-- C1: concrete refutation of balance restoration on gateway failure.
With wallet 100, unit price 32, one recipient and a total `sms.send`
failure, the endpoint does surface the 502 gateway error and does leave
zero dispatch records — but the account stays charged: the wallet remains
at the post-debit 68 instead of returning to 100, and no compensating
credit entry is written (`session.rollback()` after a committed debit is a
no-op, despite the `# Rollback wallet on failure` comment). -/
theorem C1_gateway_failure_leaves_account_charged :
    (send_sms { wallet := 100, sms_cost := 32, transactions := [],
                sms_history := [], broadcasts := [] } "hello"
        ["+256700000001"] (.failure "timeout") 7).2
      = .error { status_code := 502, detail := "SMS gateway failed: timeout" } ∧
    (send_sms { wallet := 100, sms_cost := 32, transactions := [],
                sms_history := [], broadcasts := [] } "hello"
        ["+256700000001"] (.failure "timeout") 7).1.sms_history = [] ∧
    (send_sms { wallet := 100, sms_cost := 32, transactions := [],
                sms_history := [], broadcasts := [] } "hello"
        ["+256700000001"] (.failure "timeout") 7).1.wallet = 68 ∧
    ¬ (send_sms { wallet := 100, sms_cost := 32, transactions := [],
                  sms_history := [], broadcasts := [] } "hello"
        ["+256700000001"] (.failure "timeout") 7).1.wallet = 100 ∧
    ((send_sms { wallet := 100, sms_cost := 32, transactions := [],
                 sms_history := [], broadcasts := [] } "hello"
        ["+256700000001"] (.failure "timeout") 7).1.transactions.map
      Transaction.transaction_type) = ["debit"] := by
  have h5 : (String.length "hello") = 5 := rfl
  have hge : ¬ (({ wallet := 100, sms_cost := 32, transactions := [],
                   sms_history := [], broadcasts := [] } : DbState).wallet
      < ({ wallet := 100, sms_cost := 32, transactions := [], sms_history := [],
           broadcasts := [] } : DbState).sms_cost
        * sms_units (String.length "hello")
        * ((["+256700000001"] : List String).length : ℕ)) := by
    rw [h5]
    norm_num [sms_units]
  rw [send_sms_gateway_failure _ _ _ _ _ hge]
  have hwq : quantize2 ((100 : ℚ)
      - 32 * sms_units (String.length "hello")
        * ((["+256700000001"] : List String).length : ℕ)) = 68 := by
    rw [h5]
    norm_num [sms_units]
    simpa using quantize2_intCast 68
  refine ⟨rfl, rfl, by simpa using hwq, ?_, by simp⟩
  intro hcon
  have hcon2 : quantize2 ((100 : ℚ)
      - 32 * sms_units (String.length "hello")
        * ((["+256700000001"] : List String).length : ℕ)) = 100 := by
    simpa using hcon
  have : (68 : ℚ) = 100 := hwq.symm.trans hcon2
  norm_num at this

/-- C2 counterexample: a fresh account starts with wallet `"10.0"` and an
empty ledger, so after one admin credit of 5 the stored balance is 15 while
the signed sum of its completed ledger entries is 5 — the balance does not
equal the entry sum (it is offset by the initial wallet value, which has no
ledger entry). -/
theorem C2_initial_wallet_offset_counterexample :
    (add_balance_to_user initState 5 none).wallet = 15 ∧
    completedSignedSum (add_balance_to_user initState 5 none).transactions = 5 ∧
    (add_balance_to_user initState 5 none).wallet
      ≠ completedSignedSum (add_balance_to_user initState 5 none).transactions := by
  have h10 : fl53 10 = 10 := by simpa using fl53_natCast (n := 10) (by norm_num)
  have h05 : fl53 5 = 5 := by simpa using fl53_natCast (n := 5) (by norm_num)
  have h15 : fl53 15 = 15 := by simpa using fl53_natCast (n := 15) (by norm_num)
  have hw : (add_balance_to_user initState 5 none).wallet = 15 := by
    simp only [add_balance_to_user, initState]
    rw [h10, h05, show ((10:ℚ) + 5) = 15 by norm_num, h15]
  have hs : completedSignedSum (add_balance_to_user initState 5 none).transactions
      = 5 := by
    simp [add_balance_to_user, initState, completedSignedSum, signedAmount, h05]
  refine ⟨hw, hs, ?_⟩
  rw [hw, hs]
  norm_num

/-- Invariant of `WalletOp` sequences with whole-number amounts: the wallet
stays a natural number bounded by the initial value plus everything
credited, and the difference between the wallet and the signed
completed-entry sum is preserved (every float and decimal conversion is
exact in this range). -/
theorem applyWalletOps_natural (ops : List WalletOp) :
    ∀ (s : DbState) (m : ℕ), s.wallet = (m : ℚ) →
      m + creditTotal ops < 2 ^ 53 →
      ∃ m' : ℕ, (applyWalletOps s ops).wallet = (m' : ℚ) ∧
        m' ≤ m + creditTotal ops ∧
        (applyWalletOps s ops).wallet
            - completedSignedSum (applyWalletOps s ops).transactions
          = s.wallet - completedSignedSum s.transactions := by
  induction ops with
  | nil =>
    intro s m hm _
    exact ⟨m, hm, by simp [creditTotal], by simp [applyWalletOps]⟩
  | cons op rest ih =>
    intro s m hm hb
    cases op with
    | debit c d =>
      have hct : creditTotal (.debit c d :: rest) = creditTotal rest := rfl
      rw [hct] at hb ⊢
      by_cases hc : s.wallet < (c : ℚ)
      · have hop : applyWalletOp s (.debit c d) = s := by
          simp [applyWalletOp, deduct_and_log_wallet, if_pos hc]
        have hstep : applyWalletOps s (.debit c d :: rest)
            = applyWalletOps s rest := by
          show applyWalletOps (applyWalletOp s (.debit c d)) rest
            = applyWalletOps s rest
          rw [hop]
        rw [hstep]
        exact ih s m hm hb
      · have hcm : c ≤ m := by
          have h1 := not_lt.mp hc
          rw [hm] at h1
          exact_mod_cast h1
        have hc53 : c < 2 ^ 53 := by omega
        have hok : deduct_and_log_wallet s (c : ℚ) d = .ok
            { s with
              wallet := quantize2 (s.wallet - c),
              transactions := s.transactions ++
                [{ transaction_type := "debit", amount := fl53 c,
                   description := some d, status := "completed",
                   balance_before := fl53 s.wallet,
                   balance_after := fl53 (s.wallet - c) }] } := by
          simp [deduct_and_log_wallet, if_neg hc]
        have hop : applyWalletOp s (.debit c d) = { s with
            wallet := quantize2 (s.wallet - c),
            transactions := s.transactions ++
              [{ transaction_type := "debit", amount := fl53 c,
                 description := some d, status := "completed",
                 balance_before := fl53 s.wallet,
                 balance_after := fl53 (s.wallet - c) }] } := by
          simp [applyWalletOp, hok]
        have hwq : quantize2 (s.wallet - c) = ((m - c : ℕ) : ℚ) := by
          rw [hm, show ((m : ℚ) - c) = ((m - c : ℕ) : ℚ) by
            rw [Nat.cast_sub hcm], quantize2_natCast]
        have hstep : applyWalletOps s (.debit c d :: rest)
            = applyWalletOps (applyWalletOp s (.debit c d)) rest := rfl
        obtain ⟨mf, h1, h2, h3⟩ := ih (applyWalletOp s (.debit c d)) (m - c)
          (by rw [hop]; simpa using hwq) (by omega)
        refine ⟨mf, by rw [hstep]; exact h1, by omega, ?_⟩
        rw [hstep, h3, hop]
        have hsum : completedSignedSum (s.transactions ++
            [{ transaction_type := "debit", amount := fl53 c,
               description := some d, status := "completed",
               balance_before := fl53 s.wallet,
               balance_after := fl53 (s.wallet - c) }])
            = completedSignedSum s.transactions + signedAmount
              { transaction_type := "debit", amount := fl53 c,
                description := some d, status := "completed",
                balance_before := fl53 s.wallet,
                balance_after := fl53 (s.wallet - c) } := by
          exact completedSignedSum_append s.transactions rfl
        have hsa : signedAmount
            { transaction_type := "debit", amount := fl53 c,
              description := some d, status := "completed",
              balance_before := fl53 s.wallet,
              balance_after := fl53 (s.wallet - c) } = -(c : ℚ) := by
          simp [signedAmount, fl53_natCast hc53]
        simp only [hsum, hsa, hwq]
        rw [hm, Nat.cast_sub hcm]
        ring
    | credit a =>
      have hct : creditTotal (.credit a :: rest) = a + creditTotal rest := rfl
      have ha53 : a < 2 ^ 53 := by
        rw [hct] at hb
        omega
      have hma : m + a < 2 ^ 53 := by
        rw [hct] at hb
        omega
      have hfa : fl53 (a : ℚ) = (a : ℚ) := fl53_natCast ha53
      have hfm : fl53 (m : ℚ) = (m : ℚ) := fl53_natCast (by omega)
      have hfs : fl53 ((m : ℚ) + (a : ℚ)) = ((m + a : ℕ) : ℚ) := by
        rw [show ((m : ℚ) + (a : ℚ)) = ((m + a : ℕ) : ℚ) by push_cast; ring]
        exact fl53_natCast hma
      have hop : applyWalletOp s (.credit a) = { s with
          wallet := fl53 (fl53 s.wallet + fl53 a),
          transactions := s.transactions ++
            [{ transaction_type := "credit", amount := fl53 a,
               description := none, status := "completed",
               balance_before := fl53 s.wallet,
               balance_after := fl53 (fl53 s.wallet + fl53 a) }] } := by
        simp [applyWalletOp, add_balance_to_user]
      have hwv : fl53 (fl53 s.wallet + fl53 a) = ((m + a : ℕ) : ℚ) := by
        rw [hm, hfm, hfa, hfs]
      have hstep : applyWalletOps s (.credit a :: rest)
          = applyWalletOps (applyWalletOp s (.credit a)) rest := rfl
      obtain ⟨mf, h1, h2, h3⟩ := ih (applyWalletOp s (.credit a)) (m + a)
        (by rw [hop]; simpa using hwv) (by rw [hct] at hb; omega)
      refine ⟨mf, by rw [hstep]; exact h1, by rw [hct]; omega, ?_⟩
      rw [hstep, h3, hop]
      have hsum : completedSignedSum (s.transactions ++
          [{ transaction_type := "credit", amount := fl53 a,
             description := none, status := "completed",
             balance_before := fl53 s.wallet,
             balance_after := fl53 (fl53 s.wallet + fl53 a) }])
          = completedSignedSum s.transactions + signedAmount
            { transaction_type := "credit", amount := fl53 a,
              description := none, status := "completed",
              balance_before := fl53 s.wallet,
              balance_after := fl53 (fl53 s.wallet + fl53 a) } := by
        exact completedSignedSum_append s.transactions rfl
      have hsa : signedAmount
          { transaction_type := "credit", amount := fl53 a,
            description := none, status := "completed",
            balance_before := fl53 s.wallet,
            balance_after := fl53 (fl53 s.wallet + fl53 a) } = (a : ℚ) := by
        simp [signedAmount, hfa]
      simp only [hsum, hsa]
      rw [hwv, hm]
      push_cast
      ring

/-- C2 (amended): a fresh account's stored balance equals its initial wallet
value (default 10.0, which has no ledger entry) PLUS the sum of the signed
amounts of its completed ledger entries — for every sequence of the cited
debit/credit operations with whole-number amounts totalling below `2 ^ 53`
(in this range the debit path's decimal quantization and the credit path's
binary-float conversions are exact; fractional amounts can drift by float
rounding) — and no successful debit ever leaves the balance negative. -/
theorem C2_ledger_invariant_amended (w0 : ℕ) (ops : List WalletOp)
    (hb : w0 + creditTotal ops < 2 ^ 53) :
    ((applyWalletOps { initState with wallet := (w0 : ℚ) } ops).wallet
      = (w0 : ℚ) + completedSignedSum
          (applyWalletOps { initState with wallet := (w0 : ℚ) } ops).transactions) ∧
    (∀ (s : DbState) (c : ℚ) (d : String) (s' : DbState),
      deduct_and_log_wallet s c d = .ok s' → 0 ≤ s'.wallet) := by
  constructor
  · obtain ⟨m', _, _, h3⟩ := applyWalletOps_natural ops
      { initState with wallet := (w0 : ℚ) } w0 rfl hb
    have h0 : completedSignedSum
        ({ initState with wallet := (w0 : ℚ) } : DbState).transactions = 0 := by
      simp [initState, completedSignedSum]
    rw [h0] at h3
    have : ({ initState with wallet := (w0 : ℚ) } : DbState).wallet = (w0 : ℚ) := rfl
    rw [this] at h3
    linarith
  · intro s c d s' hok
    by_cases hc : s.wallet < c
    · simp [deduct_and_log_wallet, if_pos hc] at hok
    · simp only [deduct_and_log_wallet, if_neg hc, Except.ok.injEq] at hok
      rw [← hok]
      exact quantize2_nonneg (by linarith [not_lt.mp hc])

/-- Witness for C2 (amended) at a concrete sequence: wallet 100, one credit
of 7 then one affordable debit of 32, and one concrete successful debit kept
nonnegative. -/
theorem C2_ledger_invariant_amended_witness :
    (100 + creditTotal [WalletOp.credit 7, WalletOp.debit 32 "d"] < 2 ^ 53) ∧
    ((applyWalletOps { initState with wallet := ((100 : ℕ) : ℚ) }
        [WalletOp.credit 7, WalletOp.debit 32 "d"]).wallet
      = ((100 : ℕ) : ℚ) + completedSignedSum
          (applyWalletOps { initState with wallet := ((100 : ℕ) : ℚ) }
            [WalletOp.credit 7, WalletOp.debit 32 "d"]).transactions) ∧
    (∃ s', deduct_and_log_wallet initState 4 "d" = .ok s' ∧ 0 ≤ s'.wallet) := by
  have hb : 100 + creditTotal [WalletOp.credit 7, WalletOp.debit 32 "d"]
      < 2 ^ 53 := by decide
  have hok : deduct_and_log_wallet initState 4 "d" = .ok
      { initState with
        wallet := quantize2 (initState.wallet - 4),
        transactions := initState.transactions ++
          [{ transaction_type := "debit", amount := fl53 4,
             description := some "d", status := "completed",
             balance_before := fl53 initState.wallet,
             balance_after := fl53 (initState.wallet - 4) }] } := by
    have hnl : ¬ initState.wallet < (4 : ℚ) := by
      norm_num [initState]
    simp [deduct_and_log_wallet, if_neg hnl]
  exact ⟨hb, (C2_ledger_invariant_amended 100
      [WalletOp.credit 7, WalletOp.debit 32 "d"] hb).1,
    ⟨_, hok, (C2_ledger_invariant_amended 100
      [WalletOp.credit 7, WalletOp.debit 32 "d"] hb).2 initState 4 "d" _ hok⟩⟩

theorem updateFirstReport_no_match (report : DeliveryReport) (now : ℕ) :
    ∀ l : List SmsHistory, (∀ h ∈ l, h.external_id ≠ report.id) →
      updateFirstReport report now l = l := by
  intro l
  induction l with
  | nil => intro _; rfl
  | cons h t ih =>
    intro hmiss
    have hne : (h.external_id == report.id) = false :=
      beq_eq_false_iff_ne.mpr (hmiss h (by simp))
    simp only [updateFirstReport, hne, Bool.false_eq_true, if_false,
      List.cons.injEq, true_and]
    exact ih (fun x hx => hmiss x (by simp [hx]))

theorem updateFirstReport_found (report : DeliveryReport) (now : ℕ)
    (row : SmsHistory) (post : List SmsHistory)
    (hrow : row.external_id = report.id) :
    ∀ pre : List SmsHistory, (∀ h ∈ pre, h.external_id ≠ report.id) →
      updateFirstReport report now (pre ++ row :: post)
        = pre ++ { row with
            status := pyLower report.status,
            error_message := report.failureReason,
            delivered_at :=
              if pyContains "Delivered" report.status then some now
              else none } :: post := by
  intro pre
  induction pre with
  | nil =>
    intro _
    have hb : (row.external_id == report.id) = true := beq_iff_eq.mpr hrow
    simp [updateFirstReport, hb]
  | cons h t ih =>
    intro hmiss
    have hne : (h.external_id == report.id) = false :=
      beq_eq_false_iff_ne.mpr (hmiss h (by simp))
    simp only [List.cons_append, updateFirstReport, hne, Bool.false_eq_true,
      if_false, List.cons.injEq, true_and]
    exact ih (fun x hx => hmiss x (by simp [hx]))

theorem updateFirstReport_idem (report : DeliveryReport) (t1 t2 : ℕ) :
    ∀ l : List SmsHistory,
      updateFirstReport report t2 (updateFirstReport report t1 l)
        = updateFirstReport report t2 l := by
  intro l
  induction l with
  | nil => rfl
  | cons h t ih =>
    by_cases hm : (h.external_id == report.id) = true
    · simp [updateFirstReport, hm]
    · have hne : (h.external_id == report.id) = false := by
        simpa using hm
      simp [updateFirstReport, hne, ih]

/-- C5 (amended): replaying a delivery callback never touches the balance or
the ledger, and the history after the replay is the same as after a single
delivery at the replay time — the status and failure fields are overwritten
with the same values, the delivered timestamp is re-stamped with the current
time — but the `delivery_update` broadcast is emitted again on every call,
so the replay does have a broadcast side effect beyond the first call. -/
theorem C5_reconciliation_replay_amended (s : DbState) (report : DeliveryReport)
    (t1 t2 : ℕ) :
    (delivery_report_webhook (delivery_report_webhook s report t1).1 report t2
        ).1.sms_history
      = (delivery_report_webhook s report t2).1.sms_history ∧
    (delivery_report_webhook (delivery_report_webhook s report t1).1 report t2
        ).1.wallet = s.wallet ∧
    (delivery_report_webhook (delivery_report_webhook s report t1).1 report t2
        ).1.transactions = s.transactions ∧
    (delivery_report_webhook (delivery_report_webhook s report t1).1 report t2
        ).1.broadcasts
      = s.broadcasts ++
        [.delivery_update report.phoneNumber report.status report.id
           report.failureReason,
         .delivery_update report.phoneNumber report.status report.id
           report.failureReason] ∧
    (delivery_report_webhook (delivery_report_webhook s report t1).1 report t2
        ).2 = "received" := by
  refine ⟨?_, rfl, rfl, by simp [delivery_report_webhook], rfl⟩
  simp only [delivery_report_webhook]
  exact updateFirstReport_idem report t1 t2 s.sms_history

/-- C5 counterexample: one recorded dispatch, the same `Delivered` callback
delivered twice (at times 1 and 2).  The first call broadcasts once; the
second call broadcasts again (two events total) and re-stamps the delivered
timestamp from time 1 to time 2 — contradicting "no broadcast side effects
beyond the first call" and "overwrites the same timestamp fields with the
same logical values". -/
theorem C5_reconciliation_replay_counterexample :
    ((delivery_report_webhook
        { wallet := 10, sms_cost := 32, transactions := [],
          sms_history := [{ recipient := "+256700000001", message := "hi",
                            status := "sent", sms_count := 1, cost := 32,
                            external_id := some "ATXid1", error_message := none,
                            sent_at := some 0, delivered_at := none }],
          broadcasts := [] }
        { phoneNumber := some "+256700000001", status := "Delivered",
          id := some "ATXid1", failureReason := none } 1).1.broadcasts.length
      = 1) ∧
    ((delivery_report_webhook
        (delivery_report_webhook
          { wallet := 10, sms_cost := 32, transactions := [],
            sms_history := [{ recipient := "+256700000001", message := "hi",
                              status := "sent", sms_count := 1, cost := 32,
                              external_id := some "ATXid1", error_message := none,
                              sent_at := some 0, delivered_at := none }],
            broadcasts := [] }
          { phoneNumber := some "+256700000001", status := "Delivered",
            id := some "ATXid1", failureReason := none } 1).1
        { phoneNumber := some "+256700000001", status := "Delivered",
          id := some "ATXid1", failureReason := none } 2).1.broadcasts.length
      = 2) ∧
    ((delivery_report_webhook
        { wallet := 10, sms_cost := 32, transactions := [],
          sms_history := [{ recipient := "+256700000001", message := "hi",
                            status := "sent", sms_count := 1, cost := 32,
                            external_id := some "ATXid1", error_message := none,
                            sent_at := some 0, delivered_at := none }],
          broadcasts := [] }
        { phoneNumber := some "+256700000001", status := "Delivered",
          id := some "ATXid1", failureReason := none } 1).1.sms_history.map
      SmsHistory.delivered_at = [some 1]) ∧
    ((delivery_report_webhook
        (delivery_report_webhook
          { wallet := 10, sms_cost := 32, transactions := [],
            sms_history := [{ recipient := "+256700000001", message := "hi",
                              status := "sent", sms_count := 1, cost := 32,
                              external_id := some "ATXid1", error_message := none,
                              sent_at := some 0, delivered_at := none }],
            broadcasts := [] }
          { phoneNumber := some "+256700000001", status := "Delivered",
            id := some "ATXid1", failureReason := none } 1).1
        { phoneNumber := some "+256700000001", status := "Delivered",
          id := some "ATXid1", failureReason := none } 2).1.sms_history.map
      SmsHistory.delivered_at = [some 2]) := by
  refine ⟨rfl, rfl, ?_, ?_⟩ <;> decide

/-- C6: a delivery callback whose correlation id matches no recorded
dispatch is acknowledged with success (`{"status": "received"}`, never an
error), creates no dispatch record, and modifies no record, balance or
ledger; repeating the same callback is again such a no-op. -/
theorem C6_unknown_correlation_id_noop (s : DbState) (report : DeliveryReport)
    (t1 t2 : ℕ) (hmiss : ∀ h ∈ s.sms_history, h.external_id ≠ report.id) :
    (delivery_report_webhook s report t1).2 = "received" ∧
    (delivery_report_webhook s report t1).1.sms_history = s.sms_history ∧
    (delivery_report_webhook s report t1).1.wallet = s.wallet ∧
    (delivery_report_webhook s report t1).1.transactions = s.transactions ∧
    (delivery_report_webhook (delivery_report_webhook s report t1).1 report t2
        ).1.sms_history = s.sms_history ∧
    (delivery_report_webhook (delivery_report_webhook s report t1).1 report t2
        ).1.wallet = s.wallet ∧
    (delivery_report_webhook (delivery_report_webhook s report t1).1 report t2
        ).2 = "received" := by
  have h1 : updateFirstReport report t1 s.sms_history = s.sms_history :=
    updateFirstReport_no_match report t1 s.sms_history hmiss
  have h2 : updateFirstReport report t2 s.sms_history = s.sms_history :=
    updateFirstReport_no_match report t2 s.sms_history hmiss
  exact ⟨rfl, by simp [delivery_report_webhook, h1], rfl, rfl,
    by simp [delivery_report_webhook, h1, h2], rfl, rfl⟩

/-- Witness for C6: a state with one dispatch record (correlation id
`ATXid1`) receiving a callback for the unknown id `zzz`, twice. -/
theorem C6_unknown_correlation_id_noop_witness :
    ((delivery_report_webhook
        { wallet := 10, sms_cost := 32, transactions := [],
          sms_history := [{ recipient := "+256700000001", message := "hi",
                            status := "sent", sms_count := 1, cost := 32,
                            external_id := some "ATXid1", error_message := none,
                            sent_at := some 0, delivered_at := none }],
          broadcasts := [] }
        { phoneNumber := none, status := "Failed",
          id := some "zzz", failureReason := some "unknown" } 3).2
      = "received") ∧
    ((delivery_report_webhook
        (delivery_report_webhook
          { wallet := 10, sms_cost := 32, transactions := [],
            sms_history := [{ recipient := "+256700000001", message := "hi",
                              status := "sent", sms_count := 1, cost := 32,
                              external_id := some "ATXid1", error_message := none,
                              sent_at := some 0, delivered_at := none }],
            broadcasts := [] }
          { phoneNumber := none, status := "Failed",
            id := some "zzz", failureReason := some "unknown" } 3).1
        { phoneNumber := none, status := "Failed",
          id := some "zzz", failureReason := some "unknown" } 4).1.sms_history
      = [{ recipient := "+256700000001", message := "hi",
           status := "sent", sms_count := 1, cost := 32,
           external_id := some "ATXid1", error_message := none,
           sent_at := some 0, delivered_at := none }]) := by
  have h := C6_unknown_correlation_id_noop
    { wallet := 10, sms_cost := 32, transactions := [],
      sms_history := [{ recipient := "+256700000001", message := "hi",
                        status := "sent", sms_count := 1, cost := 32,
                        external_id := some "ATXid1", error_message := none,
                        sent_at := some 0, delivered_at := none }],
      broadcasts := [] }
    { phoneNumber := none, status := "Failed",
      id := some "zzz", failureReason := some "unknown" } 3 4
    (by decide)
  exact ⟨h.1, h.2.2.2.2.1⟩

/-- C9: when the callback's correlation id is found, the matched record's
delivered timestamp is overwritten unconditionally — set to the callback
time exactly when the raw status contains the case-sensitive substring
`"Delivered"` and erased to `None` otherwise — with the status stored
lowercased and the failure reason stored as given. -/
theorem C9_delivered_timestamp_overwritten (s : DbState)
    (report : DeliveryReport) (t : ℕ) (pre post : List SmsHistory)
    (row : SmsHistory) (hs : s.sms_history = pre ++ row :: post)
    (hpre : ∀ h ∈ pre, h.external_id ≠ report.id)
    (hrow : row.external_id = report.id) :
    (delivery_report_webhook s report t).1.sms_history
      = pre ++ { row with
          status := pyLower report.status,
          error_message := report.failureReason,
          delivered_at :=
            if pyContains "Delivered" report.status then some t
            else none } :: post := by
  simp only [delivery_report_webhook, hs]
  exact updateFirstReport_found report t row post hrow pre hpre

/-- Witness for C9: a record already marked delivered at time 5 receives a
later out-of-order `Failed` callback at time 9 — the delivered timestamp is
erased to `None` (and with a `Delivered` callback at time 9 it would be
re-stamped to 9). -/
theorem C9_delivered_timestamp_overwritten_witness :
    (delivery_report_webhook
        { wallet := 10, sms_cost := 32, transactions := [],
          sms_history := [{ recipient := "+256700000001", message := "hi",
                            status := "delivered", sms_count := 1, cost := 32,
                            external_id := some "m1", error_message := none,
                            sent_at := some 0, delivered_at := some 5 }],
          broadcasts := [] }
        { phoneNumber := none, status := "Failed",
          id := some "m1", failureReason := some "expired" } 9).1.sms_history.map
      SmsHistory.delivered_at = [none] := by
  have h := C9_delivered_timestamp_overwritten
    { wallet := 10, sms_cost := 32, transactions := [],
      sms_history := [{ recipient := "+256700000001", message := "hi",
                        status := "delivered", sms_count := 1, cost := 32,
                        external_id := some "m1", error_message := none,
                        sent_at := some 0, delivered_at := some 5 }],
      broadcasts := [] }
    { phoneNumber := none, status := "Failed",
      id := some "m1", failureReason := some "expired" } 9 [] []
    { recipient := "+256700000001", message := "hi",
      status := "delivered", sms_count := 1, cost := 32,
      external_id := some "m1", error_message := none,
      sent_at := some 0, delivered_at := some 5 }
    rfl (by simp) rfl
  rw [h]
  have hfd : pyContains "Delivered" "Failed" = false := by decide
  simp [hfd]

theorem broadcast_foldl (sendOk : ℕ → Bool) :
    ∀ (l : List ℕ) (acc : List ℕ × List ℕ),
      l.foldl (broadcast_step sendOk) acc
      = (acc.1 ++ l.filter (fun c => sendOk c),
         acc.2 ++ l.filter (fun c => ! sendOk c)) := by
  intro l
  induction l with
  | nil => intro acc; simp
  | cons c t ih =>
    intro acc
    rw [List.foldl_cons]
    by_cases hc : sendOk c = true
    · rw [show broadcast_step sendOk acc c = (acc.1 ++ [c], acc.2) from by
        simp [broadcast_step, send_text, hc], ih]
      simp [List.filter_cons, hc]
    · have hc2 : sendOk c = false := by simpa using hc
      rw [show broadcast_step sendOk acc c = (acc.1, acc.2 ++ [c]) from by
        simp [broadcast_step, send_text, hc2], ih]
      simp [List.filter_cons, hc2]

theorem ConnectionManager_broadcast_eq (m : ConnectionManager)
    (sendOk : ℕ → Bool) :
    m.broadcast sendOk = .ok
      ({ active_connections :=
           m.active_connections.filter (fun c => sendOk c) },
       m.active_connections.filter (fun c => sendOk c)) := by
  simp only [ConnectionManager.broadcast]
  rw [broadcast_foldl]
  simp only [List.nil_append, Except.ok.injEq, Prod.mk.injEq]
  refine ⟨?_, trivial⟩
  congr 1
  apply List.filter_congr
  intro x hx
  by_cases hsx : sendOk x = true
  · simp [hsx, List.mem_filter, hx]
  · have hsx2 : sendOk x = false := by simpa using hsx
    simp [hsx2, List.mem_filter, hx]

/-- C8: `broadcast` attempts delivery to every active observer: every
observer whose send succeeds receives the event and stays registered, every
observer whose send raises is removed from the set without preventing the
others from receiving, no observer is invented, and no error propagates to
the caller (the result is always `.ok`). -/
theorem C8_broadcast_best_effort (m : ConnectionManager) (sendOk : ℕ → Bool) :
    ∃ (m2 : ConnectionManager) (delivered : List ℕ),
      m.broadcast sendOk = .ok (m2, delivered) ∧
      (∀ conn ∈ m.active_connections, sendOk conn = true →
        conn ∈ delivered ∧ conn ∈ m2.active_connections) ∧
      (∀ conn ∈ m.active_connections, sendOk conn = false →
        conn ∉ m2.active_connections ∧ conn ∉ delivered) ∧
      (∀ conn ∈ delivered, conn ∈ m.active_connections) ∧
      (∀ conn ∈ m2.active_connections, conn ∈ m.active_connections) := by
  refine ⟨_, _, ConnectionManager_broadcast_eq m sendOk, ?_, ?_, ?_, ?_⟩
  · intro conn hconn hok
    constructor <;> simp [List.mem_filter, hconn, hok]
  · intro conn hconn hbad
    constructor <;> simp [List.mem_filter, hconn, hbad]
  · intro conn hconn
    exact (List.mem_filter.mp hconn).1
  · intro conn hconn
    exact (List.mem_filter.mp hconn).1

/-- Witness for C8: three observers of which the middle one's send fails —
the other two receive the event, the failing one is removed, and the call
returns normally. -/
theorem C8_broadcast_best_effort_witness :
    ∃ (m2 : ConnectionManager) (delivered : List ℕ),
      (ConnectionManager.mk [1, 2, 3]).broadcast (fun c => c != 2)
        = .ok (m2, delivered) ∧
      (∀ conn ∈ [1, 2, 3], (fun c : ℕ => c != 2) conn = true →
        conn ∈ delivered ∧ conn ∈ m2.active_connections) ∧
      (∀ conn ∈ [1, 2, 3], (fun c : ℕ => c != 2) conn = false →
        conn ∉ m2.active_connections ∧ conn ∉ delivered) ∧
      (∀ conn ∈ delivered, conn ∈ [1, 2, 3]) ∧
      (∀ conn ∈ m2.active_connections, conn ∈ [1, 2, 3]) :=
  C8_broadcast_best_effort (ConnectionManager.mk [1, 2, 3]) (fun c => c != 2)

/-- C10: the two balance-mutation paths use different numeric
representations.  Every successful debit stores the pre-debit balance minus
the cost quantized to exactly two decimal places (so the stored value is
always a whole number of cents), while the admin credit stores the binary
floating-point sum with no quantization — and there is a credit (amount
`1/1024` on the fresh account) whose stored balance is not a two-decimal
value at all. -/
theorem C10_two_numeric_representations :
    (∀ (s : DbState) (c : ℚ) (d : String) (s2 : DbState),
      deduct_and_log_wallet s c d = .ok s2 →
        s2.wallet = quantize2 (s.wallet - c) ∧ quantize2 s2.wallet = s2.wallet) ∧
    (∀ (s : DbState) (a : ℚ) (d : Option String),
      (add_balance_to_user s a d).wallet = fl53 (fl53 s.wallet + fl53 a)) ∧
    (∃ (s : DbState) (a : ℚ),
      quantize2 (add_balance_to_user s a none).wallet
        ≠ (add_balance_to_user s a none).wallet) := by
  refine ⟨?_, ?_, ?_⟩
  · intro s c d s2 hok
    by_cases hc : s.wallet < c
    · simp [deduct_and_log_wallet, if_pos hc] at hok
    · simp only [deduct_and_log_wallet, if_neg hc, Except.ok.injEq] at hok
      rw [← hok]
      exact ⟨rfl, quantize2_idem _⟩
  · intro s a d
    rfl
  · refine ⟨initState, 1/1024, ?_⟩
    have h10 : fl53 10 = 10 := by
      simpa using fl53_natCast (n := 10) (by norm_num)
    have hsm : fl53 ((1 : ℚ)/1024) = 1/1024 := by
      have hlog : Int.log 2 ((1:ℚ)/1024) = -10 :=
        int_log2_eq (by norm_num) (by norm_num) (by norm_num)
      rw [fl53, if_neg (by norm_num), if_neg (by norm_num),
        abs_of_nonneg (by norm_num), hlog]
      have harg : ((1:ℚ)/1024) * 2 ^ ((52:ℤ) - (-10)) = ((2^52 : ℤ) : ℚ) := by
        norm_num
      rw [harg, roundHalfEvenZ_intCast]
      norm_num
    have hsum : fl53 ((10:ℚ) + 1/1024) = 10 + 1/1024 := by
      have hlog : Int.log 2 ((10:ℚ) + 1/1024) = 3 :=
        int_log2_eq (by norm_num) (by norm_num) (by norm_num)
      rw [fl53, if_neg (by norm_num), if_neg (by norm_num),
        abs_of_nonneg (by norm_num), hlog]
      have harg : ((10:ℚ) + 1/1024) * 2 ^ ((52:ℤ) - 3)
          = ((10241 * 2^39 : ℤ) : ℚ) := by
        norm_num
      rw [harg, roundHalfEvenZ_intCast]
      norm_num
    have hw : (add_balance_to_user initState (1/1024) none).wallet
        = 10 + 1/1024 := by
      show fl53 (fl53 initState.wallet + fl53 (1/1024)) = 10 + 1/1024
      rw [show initState.wallet = (10:ℚ) from rfl, h10, hsm, hsum]
    rw [hw]
    have hq : quantize2 ((10:ℚ) + 1/1024) = 10 := by
      rw [quantize2]
      have harg : ((10:ℚ) + 1/1024) * 100 = 256025/256 := by norm_num
      rw [harg]
      have hfl : ⌊(256025:ℚ)/256⌋ = 1000 := by
        rw [Int.floor_eq_iff]
        norm_num
      rw [roundHalfEvenZ, hfl]
      norm_num
    rw [hq]
    norm_num

/-- Witness for C10: a concrete successful debit whose stored balance is a
fixed two-decimal value, and the credit path's float formula at the
counterexample input. -/
theorem C10_two_numeric_representations_witness :
    (∃ s2, deduct_and_log_wallet initState 6 "c10" = .ok s2 ∧
      quantize2 s2.wallet = s2.wallet) ∧
    (add_balance_to_user initState (1/1024) none).wallet
      = fl53 (fl53 initState.wallet + fl53 (1/1024)) := by
  have hok : deduct_and_log_wallet initState 6 "c10" = .ok
      { initState with
        wallet := quantize2 (initState.wallet - 6),
        transactions := initState.transactions ++
          [{ transaction_type := "debit", amount := fl53 6,
             description := some "c10", status := "completed",
             balance_before := fl53 initState.wallet,
             balance_after := fl53 (initState.wallet - 6) }] } := by
    have hnl : ¬ initState.wallet < (6 : ℚ) := by
      norm_num [initState]
    simp [deduct_and_log_wallet, if_neg hnl]
  exact ⟨⟨_, hok, (C10_two_numeric_representations.1 initState 6 "c10" _ hok).2⟩,
    C10_two_numeric_representations.2.1 initState (1/1024) none⟩

/-- Witness for C5 (amended) at a concrete replayed callback. -/
theorem C5_reconciliation_replay_amended_witness :
    (delivery_report_webhook
        (delivery_report_webhook initState
          { phoneNumber := none, status := "Delivered", id := some "m9",
            failureReason := none } 1).1
        { phoneNumber := none, status := "Delivered", id := some "m9",
          failureReason := none } 2).1.wallet = initState.wallet ∧
    (delivery_report_webhook
        (delivery_report_webhook initState
          { phoneNumber := none, status := "Delivered", id := some "m9",
            failureReason := none } 1).1
        { phoneNumber := none, status := "Delivered", id := some "m9",
          failureReason := none } 2).1.broadcasts
      = initState.broadcasts ++
        [.delivery_update none "Delivered" (some "m9") none,
         .delivery_update none "Delivered" (some "m9") none] := by
  have h := C5_reconciliation_replay_amended initState
    { phoneNumber := none, status := "Delivered", id := some "m9",
      failureReason := none } 1 2
  exact ⟨h.2.1, h.2.2.2.1⟩
